import Mathlib

/-
Shallow embedding of the surveillance pipeline in src/face_recognizer.py and
src/movement_detection.py.

Conventions of the embedding:
- Frames and face encodings are opaque to the pipeline; they are modelled as
  natural numbers (pipeline) or generic types (sampling, motion detection).
- Timestamps are natural numbers counting microseconds, so that Python's
  timedelta normalization (days / seconds / microseconds components) can be
  modelled exactly; timedelta.seconds of a non-negative delta of d
  microseconds is (d / 1000000) % 86400.
- The external libraries cv2 and face_recognition are collaborators: their
  per-tick outputs (motion flag, frame encodings, per-pair match judgments,
  grayscale-blur preprocessing) are parameters of the embedded functions.
- All datetime.now() calls inside one loop iteration are modelled as the
  tick's single timestamp.
-/

namespace FaceWatch

/-- RECORDING_DURATION_THRESHOLD = 120 in face_recognizer.py. -/
def RECORDING_DURATION_THRESHOLD : Nat := 120

/-- Embeds get_random_frames(frames, num_frames) from face_recognizer.py.
The call random.sample(frames, num_frames) is modelled by the index list
sample_idxs chosen by the random source; random.sample's contract (indices
pairwise distinct, in range, num_frames of them) is a hypothesis of the
theorems about this function.  If num_frames > len(frames) the source
returns the whole list without sampling. -/
def get_random_frames {α : Type} (frames : List α) (num_frames : Nat)
    (sample_idxs : List Nat) : List α :=
  if frames.length < num_frames then frames
  else sample_idxs.filterMap (fun i => frames[i]?)

/-- Embeds FaceRecognizer.check_match.  face_encodings is the list built by
load_and_encode; frame_encodings is face_recognition.face_encodings(frame)
for the current frame; cmp is the per-pair judgment underlying
face_recognition.compare_faces.  Returns none when the reference list is
empty or no face is found in the frame, mirroring the two early returns of
None in the source; otherwise some of whether any frame encoding matches
any reference encoding. -/
def check_match {α : Type} (face_encodings : List α) (frame_encodings : List α)
    (cmp : α → α → Bool) : Option Bool :=
  if face_encodings.length = 0 then none
  else if frame_encodings.isEmpty then none
  else some (frame_encodings.any (fun fe => face_encodings.any (fun ke => cmp ke fe)))

/-- The seconds component of a Python timedelta of d microseconds (d ≥ 0):
whole seconds modulo one day.  This is what `(now - t).seconds` in
check_last_recognition_time computes — NOT the total elapsed seconds. -/
def timedelta_seconds (d : Nat) : Nat := (d / 1000000) % 86400

/-- Embeds FaceRecognizer.check_last_recognition_time(minutes).  last_known
is self.last_known_detection_time, now the current timestamp in
microseconds.  The source compares `(datetime.now() - last).seconds` —
the timedelta seconds component — against minutes * 60. -/
def check_last_recognition_time (last_known : Option Nat) (now : Nat)
    (minutes : Nat) : Bool :=
  match last_known with
  | none => true
  | some t => decide (minutes * 60 < timedelta_seconds (now - t))

/-- The mutable fields of FaceRecognizer that the run_camera loop updates. -/
structure PipelineState where
  last_known_detection_time : Option Nat
  last_unknown_detection_time : Option Nat
  is_recording : Bool
  count : Nat
  unknown_face_frames : List Nat
  deriving DecidableEq

/-- The class-level initial values of FaceRecognizer's state fields. -/
def initState : PipelineState :=
  { last_known_detection_time := none
    last_unknown_detection_time := none
    is_recording := false
    count := 0
    unknown_face_frames := [] }

/-- State effect of FaceRecognizer.handle_detected: after e-mailing a frame
sample and saving the clip it sets is_recording = False, clears
unknown_face_frames and resets count to 0. -/
def handle_detected (s : PipelineState) : PipelineState :=
  { s with is_recording := false, unknown_face_frames := [], count := 0 }

/-- Per-iteration external inputs of the run_camera loop: the captured
frame, the tick's timestamp (microseconds), the MotionDetector verdict, and
the check_match result for this frame (none = no face or empty reference
set, some b = match verdict b). -/
structure TickInput where
  frame : Nat
  now : Nat
  motion_detected : Bool
  oracle : Option Bool
  deriving DecidableEq

/-- The guard of the recognition branch in run_camera:
`motion_detected and self.check_last_recognition_time()` (minutes = 5). -/
def RecognitionRan (s : PipelineState) (inp : TickInput) : Prop :=
  inp.motion_detected = true ∧
    check_last_recognition_time s.last_known_detection_time inp.now 5 = true

instance (s : PipelineState) (inp : TickInput) : Decidable (RecognitionRan s inp) :=
  inferInstanceAs (Decidable (_ ∧ _))

/-- The value of self.count after the `if self.is_recording: self.count += 1`
statement of the else branch. -/
def next_count (s : PipelineState) : Nat :=
  if s.is_recording then s.count + 1 else s.count

/-- State effect of the `if match:` branch of run_camera. -/
def known_branch (s : PipelineState) (now : Nat) : PipelineState :=
  { s with last_known_detection_time := some now
           unknown_face_frames := []
           is_recording := false }

/-- State effect of the `else:` branch after check_match — reached for BOTH
a some-false (unknown face) and a none (no face / empty reference set)
result, because Python's `if match:` is false for None as well. -/
def unknown_branch (s : PipelineState) (now : Nat) (frame : Nat) : PipelineState :=
  { s with last_unknown_detection_time := some now
           is_recording := true
           unknown_face_frames := s.unknown_face_frames ++ [frame] }

/-- One iteration of the run_camera loop body (without the quit-key check),
returning the new state and whether handle_detected fired this tick. -/
def tick (s : PipelineState) (inp : TickInput) : PipelineState × Bool :=
  if RecognitionRan s inp then
    if inp.oracle = some true then (known_branch s inp.now, false)
    else (unknown_branch s inp.now inp.frame, false)
  else if s.is_recording = true ∧
          RECORDING_DURATION_THRESHOLD < next_count s ∧
          0 < s.unknown_face_frames.length then
    (handle_detected { s with count := next_count s }, true)
  else
    ({ s with count := next_count s }, false)

/-- The quit-key path at the bottom of the run_camera loop: on `q`, if
`self.is_recording and len(self.unknown_face_frames) > 0` then
handle_detected fires once, and the loop breaks. -/
def on_quit (s : PipelineState) : PipelineState × Bool :=
  if s.is_recording = true ∧ 0 < s.unknown_face_frames.length then
    (handle_detected s, true)
  else (s, false)

/-- Folding the loop body over a list of tick inputs. -/
def run_ticks (s : PipelineState) (inps : List TickInput) : PipelineState :=
  inps.foldl (fun s i => (tick s i).1) s

/-- States the loop can be in at an iteration boundary. -/
def Reachable (s : PipelineState) : Prop :=
  ∃ inps : List TickInput, run_ticks initState inps = s

/-- The value self.count holds at the trigger check of run_camera: if the
recognition branch ran this tick, count was not touched; otherwise it was
incremented exactly when is_recording. -/
def idle_ticks_at_check (s : PipelineState) (inp : TickInput) : Nat :=
  if RecognitionRan s inp then s.count else next_count s

/-- Inductive invariant of the loop: while recording the evidence buffer is
non-empty and an unknown timestamp has been stamped; while not recording
the buffer is empty; and count never exceeds the duration threshold at an
iteration boundary. -/
def Inv (s : PipelineState) : Prop :=
  (s.is_recording = true →
      s.unknown_face_frames ≠ [] ∧ s.last_unknown_detection_time.isSome = true) ∧
  (s.is_recording = false → s.unknown_face_frames = []) ∧
  s.count ≤ RECORDING_DURATION_THRESHOLD

/-- The relation between is_recording and the evidence buffer claimed in §3
of the design: recording implies a non-empty buffer, idle implies an empty
buffer. -/
def recording_invariant (s : PipelineState) : Prop :=
  (s.is_recording = true → s.unknown_face_frames ≠ []) ∧
  (s.is_recording = false → s.unknown_face_frames = [])

lemma inv_init : Inv initState := by
  refine ⟨?_, ?_, ?_⟩ <;> simp [initState, Inv, RECORDING_DURATION_THRESHOLD]

lemma inv_tick (s : PipelineState) (inp : TickInput) (h : Inv s) :
    Inv (tick s inp).1 := by
  obtain ⟨hrec, hidle, hcnt⟩ := h
  unfold tick
  split
  · split
    · refine ⟨?_, ?_, ?_⟩ <;> simp [known_branch, hcnt]
    · refine ⟨?_, ?_, ?_⟩ <;> simp [unknown_branch, hcnt]
  · split
    · refine ⟨?_, ?_, ?_⟩ <;> simp [handle_detected]
    · rename_i hnr hno
      rcases hb : s.is_recording with _ | _
      · refine ⟨?_, ?_, ?_⟩ <;> simp [next_count, hb, hidle hb, hcnt]
      · have hfr := hrec hb
        have hlen : 0 < s.unknown_face_frames.length :=
          List.length_pos.mpr hfr.1
        have : ¬ RECORDING_DURATION_THRESHOLD < next_count s := by
          intro hlt
          exact hno ⟨hb, hlt, hlen⟩
        refine ⟨?_, ?_, ?_⟩ <;>
          simp [next_count, hb, hfr.1, hfr.2, Nat.le_of_not_lt this] at *
        · exact Nat.le_of_not_lt (by simpa [next_count, hb] using this)

lemma inv_run (inps : List TickInput) (s : PipelineState) (h : Inv s) :
    Inv (run_ticks s inps) := by
  induction inps generalizing s with
  | nil => simpa [run_ticks] using h
  | cons i l ih =>
    simpa [run_ticks] using ih (tick s i).1 (inv_tick s i h)

lemma inv_reachable (s : PipelineState) (h : Reachable s) : Inv s := by
  obtain ⟨l, rfl⟩ := h
  exact inv_run l initState inv_init

lemma tick_fired_recording (s : PipelineState) (inp : TickInput)
    (h : (tick s inp).2 = true) : s.is_recording = true := by
  unfold tick at h
  split at h
  · split at h <;> simp at h
  · split at h
    · rename_i hc
      exact hc.1
    · simp at h

/- ───────────── MotionDetector (src/movement_detection.py) ───────────── -/

/-- Per-pixel absolute difference of two processed frames
(cv2.absdiff on flattened rasters). -/
def absdiff (a b : List Nat) : List Nat :=
  List.zipWith (fun x y => max x y - min x y) a b

/-- cv2.threshold(·, t, 255, THRESH_BINARY): pixels strictly above t map to
255, the rest to 0. -/
def threshold_binary (l : List Nat) (t : Nat) : List Nat :=
  l.map (fun d => if t < d then 255 else 0)

/-- Embeds MotionDetector.detect_motion.  initF is the grayscale-and-blur
preprocessing MotionDetector.initialize_frame (a cv2 pipeline, external but
deterministic); prev is self.previous_frame, cur the incoming frame, t the
threshold (default 25).  When prev is None the source first sets
self.previous_frame = initialize_frame(current_frame), so the reference it
diffs against is exactly the processed current frame.  Returns the motion
verdict np.sum(thresh) > 0 and the new previous_frame. -/
def detect_motion {β : Type} (initF : β → List Nat) (prev : Option (List Nat))
    (cur : β) (t : Nat) : Bool × Option (List Nat) :=
  let prevF := prev.getD (initF cur)
  let curF := initF cur
  (decide (0 < (threshold_binary (absdiff prevF curF) t).sum), some curF)

lemma threshold_absdiff_self (l : List Nat) (t : Nat) :
    (threshold_binary (absdiff l l) t).sum = 0 := by
  simp [absdiff, threshold_binary]

/- ───────────── sampling helpers ───────────── -/

lemma filterMap_getElem_length {α : Type} (frames : List α) (idxs : List Nat)
    (h : ∀ i ∈ idxs, i < frames.length) :
    (idxs.filterMap (fun i => frames[i]?)).length = idxs.length := by
  induction idxs with
  | nil => rfl
  | cons i l ih =>
    have hi : i < frames.length := h i (by simp)
    have hsome : frames[i]? = some frames[i] := List.getElem?_eq_getElem hi
    simp [List.filterMap_cons, hsome, ih (fun j hj => h j (by simp [hj]))]

/- ───────────── claim theorems ───────────── -/

/-- Claim C9: the first call to MotionDetector.detect_motion (no previous
frame reference yet) initializes the reference from the current frame and
reports no motion, for every input frame, preprocessing function and
threshold: the freshly initialized reference equals the processed current
frame, so the absolute difference thresholds to all zeros and the
non-zero-pixel sum is 0. -/
theorem first_motion_call_reports_none {β : Type} (initF : β → List Nat)
    (cur : β) (t : Nat) :
    detect_motion initF none cur t = (false, some (initF cur)) := by
  simp [detect_motion, threshold_absdiff_self]

/-- Witness for C9 at a concrete frame and preprocessing function. -/
theorem first_motion_call_reports_none_witness :
    detect_motion (fun n : Nat => [n, n + 1]) none 3 25
      = (false, some [3, 4]) :=
  first_motion_call_reports_none (fun n : Nat => [n, n + 1]) 3 25

/-- Claim C7: get_random_frames returns exactly min(n, buffer size) frames,
each an element of the buffer; when n exceeds the buffer size it returns
the whole buffer, and otherwise it samples without replacement (under
random.sample's contract on the chosen index list, so distinct buffer
entries yield distinct sampled frames). -/
theorem sample_size_and_membership {α : Type} (frames : List α) (n : Nat)
    (idxs : List Nat)
    (h : ¬ frames.length < n →
        idxs.Nodup ∧ idxs.length = n ∧ ∀ i ∈ idxs, i < frames.length) :
    (get_random_frames frames n idxs).length = min n frames.length ∧
    (∀ x ∈ get_random_frames frames n idxs, x ∈ frames) ∧
    (frames.length < n → get_random_frames frames n idxs = frames) ∧
    (frames.Nodup → (get_random_frames frames n idxs).Nodup) := by
  by_cases hlt : frames.length < n
  · refine ⟨?_, ?_, ?_, ?_⟩
    · simp [get_random_frames, hlt, Nat.min_eq_right (Nat.le_of_lt hlt)]
    · intro x hx
      simpa [get_random_frames, hlt] using hx
    · intro _
      simp [get_random_frames, hlt]
    · intro hnd
      simpa [get_random_frames, hlt] using hnd
  · obtain ⟨hnd, hlen, hbound⟩ := h hlt
    have hres : get_random_frames frames n idxs
        = idxs.filterMap (fun i => frames[i]?) := by
      simp [get_random_frames, hlt]
    refine ⟨?_, ?_, ?_, ?_⟩
    · rw [hres, filterMap_getElem_length frames idxs hbound, hlen,
        Nat.min_eq_left (Nat.le_of_not_lt hlt)]
    · intro x hx
      rw [hres] at hx
      obtain ⟨i, _, hsome⟩ := List.mem_filterMap.mp hx
      exact List.getElem?_mem hsome
    · intro hc
      exact absurd hc hlt
    · intro hfnd
      rw [hres]
      refine List.Nodup.filterMap ?_ hnd
      intro i j b hbi hbj
      rw [Option.mem_def, List.getElem?_eq_some_iff] at hbi hbj
      obtain ⟨hi, hib⟩ := hbi
      obtain ⟨hj, hjb⟩ := hbj
      exact (hfnd.getElem_inj_iff).mp (hib.trans hjb.symm)

/-- Witness for C7 at a concrete buffer of three distinct frames with
n = 2 and index list [2, 0]. -/
theorem sample_size_and_membership_witness :
    (get_random_frames [10, 20, 30] 2 [2, 0]).length = min 2 3 ∧
    (∀ x ∈ get_random_frames [10, 20, 30] 2 [2, 0], x ∈ [10, 20, 30]) ∧
    (([10, 20, 30] : List Nat).length < 2 →
        get_random_frames [10, 20, 30] 2 [2, 0] = [10, 20, 30]) ∧
    (([10, 20, 30] : List Nat).Nodup →
        (get_random_frames [10, 20, 30] 2 [2, 0]).Nodup) :=
  sample_size_and_membership [10, 20, 30] 2 [2, 0] (by decide)

/-- Claim C5 (refuted, code bug): check_last_recognition_time compares the
timedelta SECONDS COMPONENT — `(now - last).seconds`, which wraps modulo
one day — instead of the total elapsed time.  With the last Known
classification one day plus 60 seconds ago (elapsed 86460 s, far beyond the
5-minute window), the seconds component is 60 ≤ 300, so the function
returns false although its own docstring promises true once the interval
has passed. -/
theorem cooldown_seconds_wraparound_bug :
    check_last_recognition_time (some 0) 86460000000 5 = false ∧
    5 * 60 < 86460000000 / 1000000 := by
  decide

/-- Claim C6: the quit-key path fires handle_detected exactly once if and
only if the state is recording with a non-empty evidence buffer, with no
condition on count (idleTicks); otherwise the state is left untouched and
no trigger fires. -/
theorem flush_on_exit (s : PipelineState) :
    (s.is_recording = true ∧ s.unknown_face_frames ≠ [] →
        on_quit s = (handle_detected s, true)) ∧
    (s.is_recording = false ∨ s.unknown_face_frames = [] →
        on_quit s = (s, false)) := by
  constructor
  · rintro ⟨hr, hb⟩
    simp [on_quit, hr, List.length_pos.mpr hb]
  · rintro (h | h) <;> simp [on_quit, h]

/-- Witness for C6: a recording state with one buffered frame and count 0
(well below the threshold) fires the trigger on quit. -/
theorem flush_on_exit_witness :
    on_quit (PipelineState.mk none (some 0) true 0 [5]) =
      (handle_detected (PipelineState.mk none (some 0) true 0 [5]), true) :=
  (flush_on_exit (PipelineState.mk none (some 0) true 0 [5])).1 (by decide)

/-- Claim C1 (refuted): on a motion-positive, cooldown-expired tick where
check_match returns None (empty reference set here), the state is NOT
unchanged — Python's `if match:` routes None into the else branch, so the
frame is appended, is_recording is set and last_unknown_detection_time is
stamped. -/
theorem noface_tick_changes_state :
    (tick initState (TickInput.mk 7 0 true
        (check_match ([] : List Nat) [] (fun _ _ => false)))).1.is_recording
        = true ∧
    (tick initState (TickInput.mk 7 0 true
        (check_match ([] : List Nat) [] (fun _ _ => false)))).1.unknown_face_frames
        = [7] ∧
    (tick initState (TickInput.mk 7 0 true
        (check_match ([] : List Nat) [] (fun _ _ => false)))).1.last_unknown_detection_time
        = some 0 := by
  decide

/-- Claim C1 as amended: on every motion-positive, cooldown-expired tick
whose check_match result is None (no face found in the frame, or an empty
reference set), the code treats the tick as an Unknown classification:
last_unknown_detection_time is set to now, the frame is appended to the
evidence buffer, is_recording becomes true, and no trigger fires that
tick. -/
theorem noface_treated_as_unknown {α : Type} (s : PipelineState)
    (inp : TickInput) (ke fe : List α) (cmp : α → α → Bool)
    (hr : RecognitionRan s inp)
    (ho : inp.oracle = check_match ke fe cmp)
    (hnone : ke = [] ∨ fe = []) :
    (tick s inp).1.last_unknown_detection_time = some inp.now ∧
    (tick s inp).1.is_recording = true ∧
    (tick s inp).1.unknown_face_frames = s.unknown_face_frames ++ [inp.frame] ∧
    (tick s inp).2 = false := by
  have hnn : inp.oracle = none := by
    rcases hnone with h | h <;> simp [ho, h, check_match]
  unfold tick
  rw [if_pos hr]
  simp [hnn, unknown_branch]

/-- Witness for C1's amended theorem at the initial state with an empty
reference set. -/
theorem noface_treated_as_unknown_witness :
    (tick initState (TickInput.mk 7 0 true none)).1.last_unknown_detection_time
      = some 0 ∧
    (tick initState (TickInput.mk 7 0 true none)).1.is_recording = true ∧
    (tick initState (TickInput.mk 7 0 true none)).1.unknown_face_frames
      = initState.unknown_face_frames ++ [7] ∧
    (tick initState (TickInput.mk 7 0 true none)).2 = false :=
  noface_treated_as_unknown initState (TickInput.mk 7 0 true none)
    ([] : List Nat) [] (fun _ _ => false) (by decide) (by decide) (Or.inl rfl)

/-- Claim C4 (refuted): a Known classification does NOT reset count
(idleTicks).  Starting from the initial state: one Unknown tick, three idle
ticks (count reaches 3), then a Known tick — after the Known tick the
buffer is cleared and recording stops, but count is still 3, not 0. -/
theorem known_does_not_reset_count :
    (run_ticks initState
        [TickInput.mk 1 0 true (some false),
         TickInput.mk 2 1 false none,
         TickInput.mk 3 2 false none,
         TickInput.mk 4 3 false none,
         TickInput.mk 5 4 true (some true)]).count = 3 ∧
    (run_ticks initState
        [TickInput.mk 1 0 true (some false),
         TickInput.mk 2 1 false none,
         TickInput.mk 3 2 false none,
         TickInput.mk 4 3 false none,
         TickInput.mk 5 4 true (some true)]).last_known_detection_time
      = some 4 ∧
    (run_ticks initState
        [TickInput.mk 1 0 true (some false),
         TickInput.mk 2 1 false none,
         TickInput.mk 3 2 false none,
         TickInput.mk 4 3 false none,
         TickInput.mk 5 4 true (some true)]).is_recording = false := by
  decide

/-- Claim C4 as amended: every tick producing a Known classification sets
last_known_detection_time to now, clears the evidence buffer, leaves
Accumulating (is_recording becomes false), fires no trigger, and leaves
count (idleTicks) and last_unknown_detection_time unchanged — count is NOT
reset to 0. -/
theorem known_branch_effect (s : PipelineState) (inp : TickInput)
    (hr : RecognitionRan s inp) (ho : inp.oracle = some true) :
    (tick s inp).1.last_known_detection_time = some inp.now ∧
    (tick s inp).1.unknown_face_frames = [] ∧
    (tick s inp).1.is_recording = false ∧
    (tick s inp).1.count = s.count ∧
    (tick s inp).1.last_unknown_detection_time = s.last_unknown_detection_time ∧
    (tick s inp).2 = false := by
  unfold tick
  rw [if_pos hr, if_pos ho]
  simp [known_branch]

/-- Witness for C4's amended theorem: a recording state with count 3 and
one buffered frame, hit by a Known tick — count stays 3. -/
theorem known_branch_effect_witness :
    (tick (PipelineState.mk none (some 0) true 3 [1])
        (TickInput.mk 9 4 true (some true))).1.last_known_detection_time
      = some 4 ∧
    (tick (PipelineState.mk none (some 0) true 3 [1])
        (TickInput.mk 9 4 true (some true))).1.unknown_face_frames = [] ∧
    (tick (PipelineState.mk none (some 0) true 3 [1])
        (TickInput.mk 9 4 true (some true))).1.is_recording = false ∧
    (tick (PipelineState.mk none (some 0) true 3 [1])
        (TickInput.mk 9 4 true (some true))).1.count
      = (PipelineState.mk none (some 0) true 3 [1]).count ∧
    (tick (PipelineState.mk none (some 0) true 3 [1])
        (TickInput.mk 9 4 true (some true))).1.last_unknown_detection_time
      = (PipelineState.mk none (some 0) true 3 [1]).last_unknown_detection_time ∧
    (tick (PipelineState.mk none (some 0) true 3 [1])
        (TickInput.mk 9 4 true (some true))).2 = false :=
  known_branch_effect (PipelineState.mk none (some 0) true 3 [1])
    (TickInput.mk 9 4 true (some true)) (by decide) rfl

/-- Claim C3 (refuted): an Unknown classification does NOT reset count
(idleTicks) to 0.  From the initial state: one Unknown tick, five idle
ticks (count reaches 5), then another Unknown tick — the new Unknown
classification stamps last_unknown_detection_time but leaves count at 5. -/
theorem unknown_does_not_reset_count :
    (run_ticks initState
        [TickInput.mk 1 0 true (some false),
         TickInput.mk 2 1 false none,
         TickInput.mk 3 2 false none,
         TickInput.mk 4 3 false none,
         TickInput.mk 5 4 false none,
         TickInput.mk 6 5 false none,
         TickInput.mk 7 6 true (some false)]).count = 5 ∧
    (run_ticks initState
        [TickInput.mk 1 0 true (some false),
         TickInput.mk 2 1 false none,
         TickInput.mk 3 2 false none,
         TickInput.mk 4 3 false none,
         TickInput.mk 5 4 false none,
         TickInput.mk 6 5 false none,
         TickInput.mk 7 6 true (some false)]).last_unknown_detection_time
      = some 6 := by
  decide

/-- Claim C3 as amended: count (idleTicks) is unchanged on every tick where
the recognition branch ran (so neither Known nor Unknown classifications
touch it), is unchanged while not Accumulating, increments by exactly one
on a recognition-skipped tick while Accumulating without a trigger, and is
reset to 0 only when the trigger fires. -/
theorem count_evolution (s : PipelineState) (inp : TickInput) :
    (RecognitionRan s inp → (tick s inp).1.count = s.count) ∧
    (s.is_recording = false → (tick s inp).1.count = s.count) ∧
    ((tick s inp).2 = true → (tick s inp).1.count = 0) ∧
    (¬ RecognitionRan s inp → s.is_recording = true → (tick s inp).2 = false →
        (tick s inp).1.count = s.count + 1) ∧
    ((tick s inp).1.count = s.count ∨ (tick s inp).1.count = s.count + 1 ∨
        ((tick s inp).1.count = 0 ∧ (tick s inp).2 = true)) := by
  unfold tick
  by_cases hr : RecognitionRan s inp
  · rw [if_pos hr]
    by_cases ho : inp.oracle = some true
    · rw [if_pos ho]
      exact ⟨fun _ => rfl, fun _ => rfl, by simp, fun hnr => absurd hr hnr,
        Or.inl rfl⟩
    · rw [if_neg ho]
      exact ⟨fun _ => rfl, fun _ => rfl, by simp, fun hnr => absurd hr hnr,
        Or.inl rfl⟩
  · rw [if_neg hr]
    by_cases hc : s.is_recording = true ∧
        RECORDING_DURATION_THRESHOLD < next_count s ∧
        0 < s.unknown_face_frames.length
    · rw [if_pos hc]
      exact ⟨fun h => absurd h hr, fun h => by simp [h] at hc,
        fun _ => rfl, fun _ _ h => by simp at h, Or.inr (Or.inr ⟨rfl, rfl⟩)⟩
    · rw [if_neg hc]
      refine ⟨fun h => absurd h hr, ?_, by simp, ?_, ?_⟩
      · intro h
        simp [next_count, h]
      · intro _ h _
        simp [next_count, h]
      · unfold next_count
        by_cases h : s.is_recording <;> simp [h]

/-- Witness for C3's amended theorem at a recording state with count 3 on a
motion-negative tick. -/
theorem count_evolution_witness :
    (RecognitionRan (PipelineState.mk none (some 0) true 3 [1])
        (TickInput.mk 2 1 false none) →
      (tick (PipelineState.mk none (some 0) true 3 [1])
        (TickInput.mk 2 1 false none)).1.count
        = (PipelineState.mk none (some 0) true 3 [1]).count) ∧
    ((PipelineState.mk none (some 0) true 3 [1]).is_recording = false →
      (tick (PipelineState.mk none (some 0) true 3 [1])
        (TickInput.mk 2 1 false none)).1.count
        = (PipelineState.mk none (some 0) true 3 [1]).count) ∧
    ((tick (PipelineState.mk none (some 0) true 3 [1])
        (TickInput.mk 2 1 false none)).2 = true →
      (tick (PipelineState.mk none (some 0) true 3 [1])
        (TickInput.mk 2 1 false none)).1.count = 0) ∧
    (¬ RecognitionRan (PipelineState.mk none (some 0) true 3 [1])
        (TickInput.mk 2 1 false none) →
      (PipelineState.mk none (some 0) true 3 [1]).is_recording = true →
      (tick (PipelineState.mk none (some 0) true 3 [1])
        (TickInput.mk 2 1 false none)).2 = false →
      (tick (PipelineState.mk none (some 0) true 3 [1])
        (TickInput.mk 2 1 false none)).1.count
        = (PipelineState.mk none (some 0) true 3 [1]).count + 1) ∧
    ((tick (PipelineState.mk none (some 0) true 3 [1])
        (TickInput.mk 2 1 false none)).1.count
        = (PipelineState.mk none (some 0) true 3 [1]).count ∨
      (tick (PipelineState.mk none (some 0) true 3 [1])
        (TickInput.mk 2 1 false none)).1.count
        = (PipelineState.mk none (some 0) true 3 [1]).count + 1 ∨
      ((tick (PipelineState.mk none (some 0) true 3 [1])
        (TickInput.mk 2 1 false none)).1.count = 0 ∧
       (tick (PipelineState.mk none (some 0) true 3 [1])
        (TickInput.mk 2 1 false none)).2 = true)) :=
  count_evolution (PipelineState.mk none (some 0) true 3 [1])
    (TickInput.mk 2 1 false none)

/-- Claim C2: at every reachable iteration boundary, the trigger fires on a
tick exactly when the state is Accumulating, count at the trigger check
(after the idle increment, untouched when the recognition branch ran)
exceeds RECORDING_DURATION_THRESHOLD, and the evidence buffer is non-empty.
In particular a tick with an empty buffer never fires, and on ticks where a
classification occurred the condition can never hold (reachability bounds
count by the threshold), so checking it only on recognition-skipped ticks —
as the code does — loses nothing. -/
theorem trigger_fires_iff_threshold (s : PipelineState) (hs : Reachable s)
    (inp : TickInput) :
    (tick s inp).2 = true ↔
      (s.is_recording = true ∧
        RECORDING_DURATION_THRESHOLD < idle_ticks_at_check s inp ∧
        s.unknown_face_frames ≠ []) := by
  obtain ⟨hrec, hidle, hcnt⟩ := inv_reachable s hs
  unfold tick idle_ticks_at_check
  by_cases hr : RecognitionRan s inp
  · rw [if_pos hr, if_pos hr]
    constructor
    · intro h
      by_cases ho : inp.oracle = some true
      · rw [if_pos ho] at h
        simp at h
      · rw [if_neg ho] at h
        simp at h
    · rintro ⟨_, hlt, _⟩
      exact absurd hlt (Nat.not_lt.mpr hcnt)
  · rw [if_neg hr, if_neg hr]
    by_cases hc : s.is_recording = true ∧
        RECORDING_DURATION_THRESHOLD < next_count s ∧
        0 < s.unknown_face_frames.length
    · rw [if_pos hc]
      simp only [true_iff]
      exact ⟨hc.1, hc.2.1, List.length_pos.mp hc.2.2⟩
    · rw [if_neg hc]
      simp only [Bool.false_eq_true, false_iff]
      rintro ⟨hb, hlt, hne⟩
      exact hc ⟨hb, hlt, List.length_pos.mpr hne⟩

/-- Witness for C2 at the (reachable) initial state on a motion-negative
tick: no trigger, and the firing condition does not hold. -/
theorem trigger_fires_iff_threshold_witness :
    (tick initState (TickInput.mk 1 0 false none)).2 = true ↔
      (initState.is_recording = true ∧
        RECORDING_DURATION_THRESHOLD
          < idle_ticks_at_check initState (TickInput.mk 1 0 false none) ∧
        initState.unknown_face_frames ≠ []) :=
  trigger_fires_iff_threshold initState ⟨[], rfl⟩ (TickInput.mk 1 0 false none)

/-- Claim C8: at every reachable iteration boundary the state invariant
holds — Accumulating implies a non-empty evidence buffer, and not recording
implies an empty buffer — and it still holds after the flush-on-exit path
runs. -/
theorem recording_buffer_invariant (s : PipelineState) (hs : Reachable s) :
    recording_invariant s ∧ recording_invariant (on_quit s).1 := by
  obtain ⟨hrec, hidle, -⟩ := inv_reachable s hs
  refine ⟨⟨fun h => (hrec h).1, hidle⟩, ?_⟩
  unfold on_quit
  split
  · constructor <;> simp [handle_detected]
  · exact ⟨fun h => (hrec h).1, hidle⟩

/-- Witness for C8 at the (reachable) initial state. -/
theorem recording_buffer_invariant_witness :
    recording_invariant initState ∧ recording_invariant (on_quit initState).1 :=
  recording_buffer_invariant initState ⟨[], rfl⟩

/-- Claim C10: from any reachable state, whenever handle_detected is
reached — by the duration-based trigger on a tick or by the flush-on-exit
path — self.last_unknown_detection_time is not None, so the strftime call
formatting the detection time for the notification never dereferences a
missing value. -/
theorem detection_time_present (s : PipelineState) (hs : Reachable s)
    (inp : TickInput) :
    ((tick s inp).2 = true → s.last_unknown_detection_time.isSome = true) ∧
    ((on_quit s).2 = true → s.last_unknown_detection_time.isSome = true) := by
  have hinv := inv_reachable s hs
  constructor
  · intro h
    exact (hinv.1 (tick_fired_recording s inp h)).2
  · intro h
    unfold on_quit at h
    split at h
    · rename_i hc
      exact (hinv.1 hc.1).2
    · simp at h

/-- Witness for C10 at the (reachable) initial state. -/
theorem detection_time_present_witness :
    ((tick initState (TickInput.mk 1 0 false none)).2 = true →
        initState.last_unknown_detection_time.isSome = true) ∧
    ((on_quit initState).2 = true →
        initState.last_unknown_detection_time.isSome = true) :=
  detection_time_present initState ⟨[], rfl⟩ (TickInput.mk 1 0 false none)

end FaceWatch
